import Mathlib

/-!
Verification development for the docuseal-cli resilience layer
(`internal/api/client.go`, the error types and circuit breaker in the same
package, and the exit-code boundary in `internal/cmd/errors.go`).

Durations are modelled in nanoseconds, as in Go's `time.Duration`; values
that Go computes in `int64` arithmetic (the backoff delay and the jitter
bound) are wrapped to the signed 64-bit range explicitly.
-/

set_option autoImplicit false

set_option maxRecDepth 100000

/-- Signed 64-bit wrap-around, mirroring Go `int64` arithmetic:
the mathematical integer reduced to the range `[-2^63, 2^63)`. -/
def toInt64 (n : Int) : Int :=
  ((n + 2 ^ 63) % 2 ^ 64) - 2 ^ 63

/--
Go error values reachable in this code base, as a tree: `wrapped` models
`fmt.Errorf("msg: %w", err)`.  The base constructors mirror the concrete
error types of `internal/api` (`APIError`, `AuthError`, `RateLimitError`,
`CircuitBreakerError`, `ValidationError`), the sentinel
`config.ErrNotConfigured`, the two context sentinels, a net.Error whose
`Timeout()` reports true, and an unclassified error.
-/
inductive GoError where
  | apiError (statusCode : Nat) (body : String)
  | authError (reason : String)
  | rateLimitError (retryAfter : Int)
  | circuitBreakerError
  | validationError (field : String) (message : String)
  | notConfigured
  | ctxCanceled
  | ctxDeadlineExceeded
  | netTimeout (msg : String)
  | otherError (msg : String)
  | wrapped (msg : String) (inner : GoError)
  deriving DecidableEq

/-- `errors.As(err, &apiErr)`: find an `*APIError` in the unwrap chain. -/
def asAPIError : GoError → Option (Nat × String)
  | .apiError st b => some (st, b)
  | .wrapped _ inner => asAPIError inner
  | _ => none

/-- `api.IsAuthError`: `errors.As` for `*AuthError`. -/
def isAuthE : GoError → Bool
  | .authError _ => true
  | .wrapped _ inner => isAuthE inner
  | _ => false

/-- `errors.As(err, &rateLimitErr)`, returning the `RetryAfter` payload. -/
def asRateLimitE : GoError → Option Int
  | .rateLimitError n => some n
  | .wrapped _ inner => asRateLimitE inner
  | _ => none

/-- `api.IsRateLimitError`. -/
def isRateLimitE (e : GoError) : Bool :=
  (asRateLimitE e).isSome

/-- `api.IsValidationError`. -/
def isValidationE : GoError → Bool
  | .validationError _ _ => true
  | .wrapped _ inner => isValidationE inner
  | _ => false

/-- `api.IsCircuitBreakerError`. -/
def isCircuitBreakerE : GoError → Bool
  | .circuitBreakerError => true
  | .wrapped _ inner => isCircuitBreakerE inner
  | _ => false

/-- `errors.Is(err, config.ErrNotConfigured)`. -/
def isNotConfiguredE : GoError → Bool
  | .notConfigured => true
  | .wrapped _ inner => isNotConfiguredE inner
  | _ => false

/-- `errors.Is(err, context.Canceled)`. -/
def isCtxCanceledE : GoError → Bool
  | .ctxCanceled => true
  | .wrapped _ inner => isCtxCanceledE inner
  | _ => false

/-- `errors.Is(err, context.DeadlineExceeded)`. -/
def isCtxDeadlineE : GoError → Bool
  | .ctxDeadlineExceeded => true
  | .wrapped _ inner => isCtxDeadlineE inner
  | _ => false

/-- `errors.As(err, &ne) && ne.Timeout()` for `ne` a `net.Error`. -/
def isNetTimeoutE : GoError → Bool
  | .netTimeout _ => true
  | .wrapped _ inner => isNetTimeoutE inner
  | _ => false

/-- The `circuitBreaker` struct: failure counter, threshold, timestamp of
the last failure (nanoseconds), cooldown duration (nanoseconds). -/
structure CircuitBreaker where
  failures : Nat
  maxFailures : Nat
  lastFailure : Nat
  resetTimeout : Nat
  deriving DecidableEq

/-- `newCircuitBreaker()`: threshold 5, cooldown 30 seconds. -/
def newCircuitBreaker : CircuitBreaker :=
  { failures := 0, maxFailures := 5, lastFailure := 0,
    resetTimeout := 30 * 1000000000 }

/-- `circuitBreaker.isOpen()` at monotone clock instant `now`: returns the
updated breaker (the expired-open branch calls `reset()`) and the reported
openness.  `time.Since(cb.lastFailure) > cb.resetTimeout` is the strict
comparison of the source. -/
def isOpenCheck (cb : CircuitBreaker) (now : Nat) : CircuitBreaker × Bool :=
  if cb.maxFailures ≤ cb.failures then
    if cb.resetTimeout < now - cb.lastFailure then
      ({ cb with failures := 0 }, false)
    else
      (cb, true)
  else
    (cb, false)

/-- `circuitBreaker.recordSuccess()`: reset the counter. -/
def recordSuccess (cb : CircuitBreaker) : CircuitBreaker :=
  { cb with failures := 0 }

/-- `circuitBreaker.recordFailure()` at instant `now`. -/
def recordFailure (cb : CircuitBreaker) (now : Nat) : CircuitBreaker :=
  { cb with failures := cb.failures + 1, lastFailure := now }

/-- The retry policy held by `Client`: `maxRetries` and `baseDelay`
(nanoseconds).  Defaults are 3 and 1 second. -/
structure RetryCfg where
  maxRetries : Nat
  baseDelay : Int
  deriving DecidableEq

/-- The constants `maxRetries = 3`, `baseDelay = 1 * time.Second`. -/
def defaultRetryCfg : RetryCfg :=
  { maxRetries := 3, baseDelay := 1000000000 }

/-- What the transport (`c.HTTP.Do`) yields for one attempt: a response
with a status and a body, or an error value (DNS failure, connection
failure, context cancellation). -/
inductive TransportResult where
  | response (status : Nat) (body : String)
  | failure (e : GoError)
  deriving DecidableEq

/-- Outcome of the JSON-decode step of `doOnce` for a `< 400` response,
abstracted (the decode algorithm itself is modelled separately by
`decodeResponse`): either it succeeds or yields some error. -/
inductive DecodeOutcome where
  | ok
  | failed (e : GoError)
  deriving DecidableEq

/-- One attempt's environment: the transport result and, if a successful
response is decoded, the decode outcome. -/
structure AttemptIn where
  transport : TransportResult
  dec : DecodeOutcome
  deriving DecidableEq

/-- The fixed prefix `doOnce` wraps transport errors with:
`fmt.Errorf("request failed: %w", err)`. -/
def requestFailedMsg : String := "request failed"

/-- `Client.doOnce`, at the abstraction level of the retry loop: a
transport error is returned wrapped; a status `>= 400` becomes an
`APIError` carrying the status and body; otherwise the decode outcome
decides. -/
def doOnceM (a : AttemptIn) : Option GoError :=
  match a.transport with
  | .failure e => some (.wrapped requestFailedMsg e)
  | .response st body =>
    if 400 ≤ st then
      some (.apiError st body)
    else
      match a.dec with
      | .ok => none
      | .failed e => some e

/-- The generic reason of every `AuthError` produced by `Client.do`. -/
def authGenericReason : String := "invalid API key or insufficient permissions"

/-- The exponential-backoff delay of attempt `attempt`:
`c.baseDelay * time.Duration(1<<attempt)` in Go int64 arithmetic
(the shift and the product both wrap). -/
def backoffDelay (d : Int) (attempt : Nat) : Int :=
  toInt64 (d * toInt64 ((2 : Int) ^ attempt))

/-- `maxJitter := int64(delay / 2)`: Go `Duration` division truncates
toward zero.  `rand.Int64N(maxJitter)` panics when this is `≤ 0`. -/
def maxJitterAt (d : Int) (attempt : Nat) : Int :=
  Int.tdiv (backoffDelay d attempt) 2

/-- `int(retryAfterDur.Seconds())` for
`retryAfterDur := c.baseDelay * time.Duration(1<<c.maxRetries)`:
the duration converted to whole seconds, truncated toward zero.
(`Seconds()` divides by `1e9`; the float rounding of the Go conversion
is exact at every instance considered here.) -/
def retryAfterSeconds (c : RetryCfg) : Int :=
  Int.tdiv (toInt64 (c.baseDelay * toInt64 ((2 : Int) ^ c.maxRetries))) 1000000000

/-- How one `Client.do` call ends: success, an error value, or a runtime
panic (`rand.Int64N` called with a non-positive bound). -/
inductive DoOutcome where
  | ok
  | err (e : GoError)
  | panicked
  deriving DecidableEq

/-- Result of a modelled `Client.do` call: the outcome, the number of
`doOnce` attempts performed, and the final breaker state. -/
structure DoRes where
  out : DoOutcome
  attempts : Nat
  cb : CircuitBreaker
  deriving DecidableEq

/--
The retry loop of `Client.do` (`for attempt := 0; attempt <= c.maxRetries;
attempt++`).  `resp` gives each attempt's environment, `cancelSleep`
tells whether the caller's context is cancelled during the backoff sleep
of that attempt (the `select` between `ctx.Done()` and the timer), and
`ctxE` is the value of `ctx.Err()`.  `remaining` counts the iterations
the loop may still run (`c.maxRetries + 1 - attempt`); the base case
models the loop falling through, returning the initial `nil` `lastErr`
(unreachable: every branch of the body returns or breaks).
-/
def doLoop (c : RetryCfg) (resp : Nat → AttemptIn) (cancelSleep : Nat → Bool)
    (ctxE : GoError) (now : Nat) :
    Nat → Nat → CircuitBreaker → DoRes
  | _attempt, 0, cb => ⟨.ok, _attempt, cb⟩
  | attempt, remaining + 1, cb =>
    match doOnceM (resp attempt) with
    | none => ⟨.ok, attempt + 1, recordSuccess cb⟩
    | some e =>
      match asAPIError e with
      | some (st, _body) =>
        if st = 401 ∨ st = 403 then
          ⟨.err (.authError authGenericReason), attempt + 1, recordFailure cb now⟩
        else if st = 429 then
          if attempt < c.maxRetries then
            if maxJitterAt c.baseDelay attempt ≤ 0 then
              ⟨.panicked, attempt + 1, cb⟩
            else if cancelSleep attempt then
              ⟨.err ctxE, attempt + 1, cb⟩
            else
              doLoop c resp cancelSleep ctxE now (attempt + 1) remaining cb
          else
            ⟨.err (.rateLimitError (retryAfterSeconds c)), attempt + 1, cb⟩
        else
          if 500 ≤ st then
            ⟨.err e, attempt + 1, recordFailure cb now⟩
          else
            ⟨.err e, attempt + 1, cb⟩
      | none => ⟨.err e, attempt + 1, cb⟩

/-- `Client.do`: the circuit-breaker gate followed by the retry loop. -/
def clientDo (c : RetryCfg) (resp : Nat → AttemptIn) (cancelSleep : Nat → Bool)
    (ctxE : GoError) (now : Nat) (cb : CircuitBreaker) : DoRes :=
  let g := isOpenCheck cb now
  if g.2 = true then ⟨.err .circuitBreakerError, 0, g.1⟩
  else doLoop c resp cancelSleep ctxE now 0 (c.maxRetries + 1) g.1

/-- An attempt environment in which every attempt yields HTTP 429. -/
def all429 : Nat → AttemptIn :=
  fun _ => ⟨.response 429 ("rate limited"), .ok⟩

/-- A cancellation oracle that never cancels. -/
def noCancel : Nat → Bool := fun _ => false

/-! ## Response decoding (`doOnce`, lines 219-238): envelope unwrapping -/

/-- JSON values. -/
inductive JVal where
  | null
  | bool (b : Bool)
  | num (n : Int)
  | str (s : String)
  | arr (items : List JVal)
  | obj (fields : List (String × JVal))

/-- Last-wins field lookup, as `encoding/json` keeps the last duplicate key. -/
def lookupFieldLast (k : String) (fields : List (String × JVal)) : Option JVal :=
  fields.foldl (fun acc p => if p.1 = k then some p.2 else acc) none

/--
The decode step of `Client.doOnce` for a success response, parameterised
by the destination's decoder `um` (what `json.Unmarshal` into that
destination accepts): try the direct decode; on failure, decode the body
as a wrapper object and, when it has a `data` field, decode that inner
value; `none` is the decode-error outcome.
-/
def decodeResponse {V : Type} (um : JVal → Option V) (body : JVal) : Option V :=
  match um body with
  | some v => some v
  | none =>
    match body with
    | .obj fields =>
      match lookupFieldLast ("data") fields with
      | some d => um d
      | none => none
    | _ => none

/-- The decoder of destination `struct { Status string }`: any JSON object
is accepted (unknown fields are ignored); a missing or null `status`
field leaves the zero value `""`; a non-string `status` is an error. -/
def umStatus : JVal → Option String
  | .obj fields =>
    match lookupFieldLast ("status") fields with
    | some (.str s) => some s
    | some .null => some ""
    | some _ => none
    | none => some ""
  | _ => none

/-- The decoder of destination `[]Webhook`-style slices, abstracted: only
JSON arrays are accepted. -/
def umArrayOnly : JVal → Option (List JVal)
  | .arr items => some items
  | _ => none

/-! ## Base URL normalization (`NewWithOptions`, lines 91-97) -/

/-- `strings.HasSuffix`. -/
def hasSuffixL (s suffix : List Char) : Bool :=
  decide (suffix.length ≤ s.length ∧ s.drop (s.length - suffix.length) = suffix)

/-- `strings.TrimSuffix`: remove one occurrence of the suffix, if present. -/
def trimOneSuffix (s suffix : List Char) : List Char :=
  if hasSuffixL s suffix then s.take (s.length - suffix.length) else s

/-- The fixed API path segment. -/
def apiSegment : List Char := ['/', 'a', 'p', 'i']

/-- The base URL normalization of `NewWithOptions`: strip one trailing
slash, then append `/api` unless the result already ends with it. -/
def normalizeBaseURL (u : List Char) : List Char :=
  let u1 := trimOneSuffix u ['/']
  if hasSuffixL u1 apiSegment then u1 else u1 ++ apiSegment

/-! ## Error body sanitization (`sanitizeErrorBody`, `APIError.Error`) -/

/-- The `\s` character class of Go's regexp (`[\t\n\f\r ]`). -/
def isWSChar (c : Char) : Bool :=
  c = ' ' || c = '\t' || c = '\n' || c = '\x0c' || c = '\r'

/-- Strip a case-insensitive literal (given in lowercase) from the front
of the input, returning the remainder. -/
def ciStrip : List Char → List Char → Option (List Char)
  | [], s => some s
  | _ :: _, [] => none
  | p :: ps, c :: cs => if c.toLower = p then ciStrip ps cs else none

/-- Consume one expected character. -/
def expectChar (ch : Char) : List Char → Option (List Char)
  | c :: cs => if c = ch then some cs else none
  | [] => none

/--
Match `(?i)"<key>"\s*:\s*"[^"]*"` at the front of the input, returning
the remainder after the match.  The classes involved are disjoint, so
the greedy RE2 match is this deterministic scan.
-/
def matchKeyPat (key : List Char) (s : List Char) : Option (List Char) :=
  match expectChar '"' s with
  | none => none
  | some s1 =>
    match ciStrip key s1 with
    | none => none
    | some s2 =>
      match expectChar '"' s2 with
      | none => none
      | some s3 =>
        let s4 := (s3.span isWSChar).2
        match expectChar ':' s4 with
        | none => none
        | some s5 =>
          let s6 := (s5.span isWSChar).2
          match expectChar '"' s6 with
          | none => none
          | some s7 =>
            let s8 := (s7.span (fun c => c ≠ '"')).2
            expectChar '"' s8

/-- The token character class of the bearer pattern:
`[A-Za-z0-9\-\._~\+\/]`. -/
def isBearerTokenChar (c : Char) : Bool :=
  c.isAlphanum || c = '-' || c = '.' || c = '_' || c = '~' || c = '+' || c = '/'

/-- Match `(?i)"bearer\s+[A-Za-z0-9\-\._~\+\/]+=*"` at the front of the
input, returning the remainder after the match. -/
def matchBearerPat (s : List Char) : Option (List Char) :=
  match expectChar '"' s with
  | none => none
  | some s1 =>
    match ciStrip (("bearer").toList) s1 with
    | none => none
    | some s2 =>
      let (ws, s3) := s2.span isWSChar
      if ws.length = 0 then none
      else
        let (tok, s4) := s3.span isBearerTokenChar
        if tok.length = 0 then none
        else
          let s5 := (s4.span (fun c => c = '=')).2
          expectChar '"' s5

/-- The replacement function passed to `ReplaceAllStringFunc`: split the
match on `:`; when it has at least two parts keep the part before the
first colon and redact the value, otherwise redact the whole match. -/
def redactMatch (m : List Char) : List Char :=
  let before := m.takeWhile (fun c => c ≠ ':')
  if before.length < m.length then before ++ (": \"[REDACTED]\"").toList
  else ("\"[REDACTED]\"").toList

/-- `pattern.ReplaceAllStringFunc`: scan left to right, replacing each
non-overlapping leftmost match and continuing after it.  `fuel` bounds
the scan by the input length (every step consumes at least one
character, since every match here starts with `"`). -/
def redactScan (tryMatch : List Char → Option (List Char)) :
    Nat → List Char → List Char
  | 0, s => s
  | _ + 1, [] => []
  | fuel + 1, c :: cs =>
    match tryMatch (c :: cs) with
    | some rest =>
      redactMatch ((c :: cs).take ((c :: cs).length - rest.length)) ++
        redactScan tryMatch fuel rest
    | none => c :: redactScan tryMatch fuel cs

/-- Apply one pattern's `ReplaceAllStringFunc` to the whole input. -/
def applyPattern (tryMatch : List Char → Option (List Char))
    (s : List Char) : List Char :=
  redactScan tryMatch s.length s

/-- The seven sanitize patterns, in source order. -/
def sanitizeMatchers : List (List Char → Option (List Char)) :=
  [matchKeyPat (("api_key").toList),
   matchKeyPat (("token").toList),
   matchKeyPat (("password").toList),
   matchKeyPat (("secret").toList),
   matchKeyPat (("authorization").toList),
   matchKeyPat (("auth").toList),
   matchBearerPat]

/-- `maxErrorBodyLength`. -/
def maxErrorBodyLength : Nat := 500

/-- The truncation marker appended when the body is cut. -/
def truncationMarker : List Char := ("... (truncated)").toList

/-- `sanitizeErrorBody`: truncate to 500 characters (appending the
marker) first, then run the redaction patterns in order. -/
def sanitizeErrorBody (body : List Char) : List Char :=
  let b :=
    if maxErrorBodyLength < body.length then
      body.take maxErrorBodyLength ++ truncationMarker
    else body
  sanitizeMatchers.foldl (fun acc tm => applyPattern tm acc) b

/-- `APIError.Error()`: `"API error (status %d): %s"` over the sanitized
body. -/
def apiErrorRender (statusCode : Nat) (body : String) : String :=
  ("API error (status ") ++ toString statusCode ++ ("): ") ++
    (sanitizeErrorBody body.toList).asString

/-! ## Boundary classification (`internal/cmd/errors.go`) -/

/-- Each error type's `Error()` rendering, plus `fmt.Errorf` wrapping. -/
def errMsg : GoError → String
  | .apiError st b => apiErrorRender st b
  | .authError r => ("authentication failed: ") ++ r
  | .rateLimitError n =>
    ("rate limit exceeded, retry after ") ++ toString n ++ (" seconds")
  | .circuitBreakerError =>
    "circuit breaker open: too many consecutive failures, requests temporarily blocked"
  | .validationError f m =>
    ("validation error on field '") ++ f ++ ("': ") ++ m
  | .notConfigured =>
    "docuseal not configured - run 'docuseal auth login' or set DOCUSEAL_URL and DOCUSEAL_API_KEY"
  | .ctxCanceled => "context canceled"
  | .ctxDeadlineExceeded => "context deadline exceeded"
  | .netTimeout m => m
  | .otherError m => m
  | .wrapped m inner => m ++ (": ") ++ errMsg inner

/-- `classifyError`: the switch of `internal/cmd/errors.go`, in source
order. -/
def classifyError (e : GoError) : String :=
  if isNotConfiguredE e then "not_configured"
  else if isAuthE e then "auth"
  else if isRateLimitE e then "rate_limit"
  else if isValidationE e then "validation"
  else if isCircuitBreakerE e then "circuit_breaker"
  else if isCtxDeadlineE e then "timeout"
  else if isNetTimeoutE e then "timeout"
  else "unknown"

/-- `ExitCode`: the stable exit-code mapping over `classifyError`. -/
def exitCode (e : GoError) : Int :=
  if classifyError e = "validation" then 2
  else if classifyError e = "auth" then 3
  else if classifyError e = "rate_limit" then 4
  else if classifyError e = "not_configured" then 5
  else if classifyError e = "circuit_breaker" then 6
  else if classifyError e = "timeout" then 7
  else 1

/-- A JSON payload value of `WriteError`'s machine-readable output. -/
inductive PayloadVal where
  | s (v : String)
  | i (v : Int)
  deriving DecidableEq

/-- The JSON payload assembled by `WriteError` for JSON/NDJSON output:
`error`, `type`, `exit_code`, and `retry_after_seconds` when the error
chain holds a `RateLimitError`. -/
def writeErrorPayload (e : GoError) : List (String × PayloadVal) :=
  let base : List (String × PayloadVal) :=
    [(("error"), .s (errMsg e)),
     (("type"), .s (classifyError e)),
     (("exit_code"), .i (exitCode e))]
  match asRateLimitE e with
  | some n => base ++ [(("retry_after_seconds"), .i n)]
  | none => base

/-- Field lookup in the rendered payload. -/
def payloadLookup (k : String) (l : List (String × PayloadVal)) :
    Option PayloadVal :=
  (l.find? (fun p => p.1 == k)).map (fun p => p.2)

/-! ## Helper lemmas -/

theorem toInt64_of_lt {n : Int} (h0 : 0 ≤ n) (h : n < 2 ^ 63) : toInt64 n = n := by
  have e : (2 : Int) ^ 63 = 9223372036854775808 := by norm_num
  have e2 : (2 : Int) ^ 64 = 18446744073709551616 := by norm_num
  unfold toInt64
  rw [e, e2] at *
  rw [Int.emod_eq_of_lt (by omega) (by omega)]
  omega

theorem maxJitterAt_pos {d : Int} {a : Nat} (hd : 2 ≤ d)
    (h2 : d * 2 ^ a < 2 ^ 63) : 0 < maxJitterAt d a := by
  have hpa : (0 : Int) < 2 ^ a := by positivity
  have h3 : (2 : Int) ≤ d * 2 ^ a := by nlinarith
  have hpow : (2 : Int) ^ a < 2 ^ 63 := by nlinarith
  unfold maxJitterAt backoffDelay
  rw [toInt64_of_lt (le_of_lt hpa) hpow, toInt64_of_lt (by positivity) h2]
  rw [Int.tdiv_eq_ediv (by positivity) (by norm_num)]
  have hdiv := Int.ediv_le_ediv (by norm_num : (0 : Int) < 2) h3
  omega

theorem retryAfterSeconds_no_overflow {c : RetryCfg} (hd : 2 ≤ c.baseDelay)
    (hov : c.baseDelay * 2 ^ c.maxRetries < 2 ^ 63) :
    retryAfterSeconds c = Int.tdiv (c.baseDelay * 2 ^ c.maxRetries) 1000000000 := by
  have hpa : (0 : Int) < 2 ^ c.maxRetries := by positivity
  have hpow : (2 : Int) ^ c.maxRetries < 2 ^ 63 := by nlinarith
  unfold retryAfterSeconds
  rw [toInt64_of_lt (le_of_lt hpa) hpow, toInt64_of_lt (by positivity) hov]

theorem doLoop_all429 (c : RetryCfg) (resp : Nat → AttemptIn)
    (cancel : Nat → Bool) (ctxE : GoError) (now : Nat) (cb : CircuitBreaker)
    (bodies : Nat → String)
    (hd : 2 ≤ c.baseDelay) (hov : c.baseDelay * 2 ^ c.maxRetries < 2 ^ 63)
    (hresp : ∀ i, (resp i).transport = .response 429 (bodies i))
    (hcancel : ∀ i, cancel i = false) :
    ∀ r a, a + r = c.maxRetries + 1 → 0 < r →
      doLoop c resp cancel ctxE now a r cb =
        ⟨.err (.rateLimitError (retryAfterSeconds c)), c.maxRetries + 1, cb⟩ := by
  intro r
  induction r with
  | zero => intro a _ h; omega
  | succ r ih =>
    intro a ha _
    by_cases hac : a < c.maxRetries
    · have hmono : (2 : Int) ^ a ≤ 2 ^ c.maxRetries :=
        pow_le_pow_right₀ (by norm_num) (le_of_lt hac)
      have hova : c.baseDelay * 2 ^ a < 2 ^ 63 := by nlinarith
      have hjp := maxJitterAt_pos hd hova
      have step : doLoop c resp cancel ctxE now a (r + 1) cb =
          doLoop c resp cancel ctxE now (a + 1) r cb := by
        simp [doLoop, doOnceM, hresp a, asAPIError, hac, not_le.mpr hjp,
          hcancel a]
      rw [step]
      exact ih (a + 1) (by omega) (by omega)
    · have hae : a = c.maxRetries := by omega
      subst hae
      simp [doLoop, doOnceM, hresp, asAPIError]

/-! ## Claim theorems -/

/-- C2: the circuit breaker (threshold 5, cooldown 30 s) satisfies:
with the counter at 5 or more and the cooldown not yet elapsed, a `do()`
call returns `CircuitBreakerError` with zero attempts and the breaker
untouched; an `isOpen()` check after the cooldown has elapsed since the
last recorded failure resets the counter to zero and reports closed; and
`recordSuccess()` resets the counter to zero in every state. -/
theorem c2_breaker_gate_reset_invariants :
    (∀ (c : RetryCfg) (resp : Nat → AttemptIn) (cancel : Nat → Bool)
       (ctxE : GoError) (now : Nat) (cb : CircuitBreaker),
       cb.maxFailures = 5 → 5 ≤ cb.failures →
       now - cb.lastFailure ≤ cb.resetTimeout →
       clientDo c resp cancel ctxE now cb = ⟨.err .circuitBreakerError, 0, cb⟩)
    ∧ (∀ (cb : CircuitBreaker) (now : Nat),
       cb.maxFailures = 5 → 5 ≤ cb.failures →
       cb.resetTimeout < now - cb.lastFailure →
       isOpenCheck cb now = ({ cb with failures := 0 }, false))
    ∧ (∀ cb : CircuitBreaker, (recordSuccess cb).failures = 0) := by
  refine ⟨?_, ?_, ?_⟩
  · intro c resp cancel ctxE now cb hm h5 hcool
    have hopen : isOpenCheck cb now = (cb, true) := by
      unfold isOpenCheck
      rw [if_pos (by omega), if_neg (not_lt.mpr hcool)]
    simp [clientDo, hopen]
  · intro cb now hm h5 hcool
    unfold isOpenCheck
    rw [if_pos (by omega), if_pos hcool]
  · intro cb
    simp [recordSuccess]

/-- A breaker that has just recorded its fifth failure at instant 0. -/
def cbOpen5 : CircuitBreaker :=
  { failures := 5, maxFailures := 5, lastFailure := 0,
    resetTimeout := 30 * 1000000000 }

theorem c2_breaker_gate_reset_invariants_witness :
    clientDo defaultRetryCfg all429 noCancel .ctxCanceled 1000 cbOpen5 =
        ⟨.err .circuitBreakerError, 0, cbOpen5⟩
    ∧ isOpenCheck cbOpen5 (40 * 1000000000) =
        ({ cbOpen5 with failures := 0 }, false)
    ∧ (recordSuccess cbOpen5).failures = 0 :=
  ⟨c2_breaker_gate_reset_invariants.1 defaultRetryCfg all429 noCancel
      .ctxCanceled 1000 cbOpen5 rfl (by decide) (by decide),
   c2_breaker_gate_reset_invariants.2.1 cbOpen5 (40 * 1000000000) rfl
      (by decide) (by decide),
   c2_breaker_gate_reset_invariants.2.2 cbOpen5⟩

/-- C3: a first attempt answered with 401 or 403 (breaker closed on
entry) makes exactly one attempt, increments the breaker's failure
counter by exactly one, and returns an `AuthError` whose reason is the
fixed generic string, independent of the server-provided body. -/
theorem c3_auth_single_attempt_generic :
    ∀ (c : RetryCfg) (resp : Nat → AttemptIn) (cancel : Nat → Bool)
      (ctxE : GoError) (now : Nat) (cb : CircuitBreaker)
      (st : Nat) (b : String) (d : DecodeOutcome),
      st = 401 ∨ st = 403 →
      resp 0 = ⟨.response st b, d⟩ →
      cb.failures < cb.maxFailures →
      clientDo c resp cancel ctxE now cb =
          ⟨.err (.authError authGenericReason), 1, recordFailure cb now⟩
        ∧ (recordFailure cb now).failures = cb.failures + 1 := by
  intro c resp cancel ctxE now cb st b d hst hresp hcb
  have hopen : isOpenCheck cb now = (cb, false) := by
    unfold isOpenCheck
    rw [if_neg (not_le.mpr hcb)]
  refine ⟨?_, by simp [recordFailure]⟩
  rcases hst with rfl | rfl <;>
    simp [clientDo, hopen, doLoop, doOnceM, hresp, asAPIError]

/-- A response oracle answering every attempt with 401. -/
def resp401 : Nat → AttemptIn :=
  fun _ => ⟨.response 401 ("denied"), .ok⟩

theorem c3_auth_single_attempt_generic_witness :
    clientDo defaultRetryCfg resp401 noCancel .ctxCanceled 7 newCircuitBreaker =
        ⟨.err (.authError authGenericReason), 1,
          recordFailure newCircuitBreaker 7⟩
    ∧ (recordFailure newCircuitBreaker 7).failures =
        newCircuitBreaker.failures + 1 :=
  c3_auth_single_attempt_generic defaultRetryCfg resp401 noCancel .ctxCanceled
    7 newCircuitBreaker 401 ("denied") .ok (Or.inl rfl) rfl (by decide)

/-- C4: a first attempt answered with a status `≥ 500` (breaker closed on
entry) makes exactly one attempt, informs the breaker of a failure, and
returns the raw `APIError` carrying that status and the response body. -/
theorem c4_server_error_single_attempt_raw :
    ∀ (c : RetryCfg) (resp : Nat → AttemptIn) (cancel : Nat → Bool)
      (ctxE : GoError) (now : Nat) (cb : CircuitBreaker)
      (st : Nat) (b : String) (d : DecodeOutcome),
      500 ≤ st →
      resp 0 = ⟨.response st b, d⟩ →
      cb.failures < cb.maxFailures →
      clientDo c resp cancel ctxE now cb =
          ⟨.err (.apiError st b), 1, recordFailure cb now⟩
        ∧ (recordFailure cb now).failures = cb.failures + 1 := by
  intro c resp cancel ctxE now cb st b d hst hresp hcb
  have hopen : isOpenCheck cb now = (cb, false) := by
    unfold isOpenCheck
    rw [if_neg (not_le.mpr hcb)]
  have h1 : ¬(st = 401 ∨ st = 403) := by omega
  have h2 : st ≠ 429 := by omega
  have h3 : 400 ≤ st := by omega
  refine ⟨?_, by simp [recordFailure]⟩
  simp [clientDo, hopen, doLoop, doOnceM, hresp, asAPIError, h1, h2, h3, hst]

/-- A response oracle answering every attempt with 500. -/
def resp500 : Nat → AttemptIn :=
  fun _ => ⟨.response 500 ("internal error"), .ok⟩

theorem c4_server_error_single_attempt_raw_witness :
    clientDo defaultRetryCfg resp500 noCancel .ctxCanceled 7 newCircuitBreaker =
        ⟨.err (.apiError 500 ("internal error")), 1,
          recordFailure newCircuitBreaker 7⟩
    ∧ (recordFailure newCircuitBreaker 7).failures =
        newCircuitBreaker.failures + 1 :=
  c4_server_error_single_attempt_raw defaultRetryCfg resp500 noCancel
    .ctxCanceled 7 newCircuitBreaker 500 ("internal error") .ok (by decide)
    rfl (by decide)

/-- C1 (amended): for every client whose base delay `d` is at least 2 ns
and whose policy does not overflow `int64` (`d * 2^maxRetries < 2^63`),
a `do()` call entered with the breaker closed whose every attempt yields
HTTP 429 makes exactly `maxRetries + 1` attempts, returns a
`RateLimitError` whose `RetryAfter` is `d * 2^maxRetries` expressed in
whole seconds, and leaves the breaker state unchanged. -/
theorem c1_rate_limit_exhaustion :
    ∀ (c : RetryCfg) (resp : Nat → AttemptIn) (cancel : Nat → Bool)
      (ctxE : GoError) (now : Nat) (cb : CircuitBreaker)
      (bodies : Nat → String),
      2 ≤ c.baseDelay →
      c.baseDelay * 2 ^ c.maxRetries < 2 ^ 63 →
      cb.failures < cb.maxFailures →
      (∀ i, (resp i).transport = .response 429 (bodies i)) →
      (∀ i, cancel i = false) →
      clientDo c resp cancel ctxE now cb =
          ⟨.err (.rateLimitError (retryAfterSeconds c)), c.maxRetries + 1, cb⟩
        ∧ retryAfterSeconds c =
            Int.tdiv (c.baseDelay * 2 ^ c.maxRetries) 1000000000 := by
  intro c resp cancel ctxE now cb bodies hd hov hcb hresp hcancel
  have hopen : isOpenCheck cb now = (cb, false) := by
    unfold isOpenCheck
    rw [if_neg (not_le.mpr hcb)]
  refine ⟨?_, retryAfterSeconds_no_overflow hd hov⟩
  have hloop := doLoop_all429 c resp cancel ctxE now cb bodies hd hov hresp
    hcancel (c.maxRetries + 1) 0 (by omega) (by omega)
  simp [clientDo, hopen, hloop]

theorem c1_rate_limit_exhaustion_witness :
    clientDo defaultRetryCfg all429 noCancel .ctxCanceled 12 newCircuitBreaker =
        ⟨.err (.rateLimitError (retryAfterSeconds defaultRetryCfg)),
          defaultRetryCfg.maxRetries + 1, newCircuitBreaker⟩
    ∧ retryAfterSeconds defaultRetryCfg =
        Int.tdiv (defaultRetryCfg.baseDelay * 2 ^ defaultRetryCfg.maxRetries)
          1000000000 :=
  c1_rate_limit_exhaustion defaultRetryCfg all429 noCancel .ctxCanceled 12
    newCircuitBreaker (fun _ => ("rate limited")) (by decide) (by decide)
    (by decide) (fun _ => rfl) (fun _ => rfl)

/-- C1 counterexample: a client configured with `maxRetries = 1` and
`baseDelay = 1` ns whose every attempt yields 429 does not make
`maxRetries + 1 = 2` attempts and does not return a `RateLimitError`:
the first retry computes the jitter bound `(1 * 2^0) / 2 = 0`, and
`rand.Int64N(0)` panics after a single attempt. -/
theorem c1_rate_limit_exhaustion_counterexample :
    clientDo { maxRetries := 1, baseDelay := 1 } all429 noCancel .ctxCanceled
        0 newCircuitBreaker = ⟨.panicked, 1, newCircuitBreaker⟩
    ∧ DoOutcome.panicked ≠
        DoOutcome.err (.rateLimitError
          (retryAfterSeconds { maxRetries := 1, baseDelay := 1 }))
    ∧ (1 : Nat) ≠ 1 + 1 := by
  decide

/-- C10 counterexample: the claim's universal part fails on the code:
`baseDelay = 2` ns satisfies `d ≥ 2`, and attempt 62 is a genuine retry
of a client configured with `maxRetries = 63`, yet the `int64`
computation `d * (1 << 62) / 2` wraps to `-2^62`, so `rand.Int64N`
panics there instead of receiving a strictly positive bound (the whole
`do()` call on an all-429 sequence ends in a panic after 63 attempts). -/
theorem c10_jitter_precondition_counterexample :
    (2 : Int) ≤ 2
    ∧ (62 : Nat) < 63
    ∧ maxJitterAt 2 62 ≤ 0
    ∧ clientDo { maxRetries := 63, baseDelay := 2 } all429 noCancel
        .ctxCanceled 0 newCircuitBreaker = ⟨.panicked, 63, newCircuitBreaker⟩ := by
  decide

/-- C10 (amended): the 429 retry branch is panic-free only when the
backoff product stays in `int64` range: whenever `d ≥ 2` ns and
`d * 2^attempt < 2^63` the jitter bound passed to `rand.Int64N` is
strictly positive (the 1-second default with its default 3 retries
qualifies); for `d = 1` ns the bound of the first retry is zero and the
retry attempt panics instead of returning an error; and past the
`int64` range the bound can wrap nonpositive and panic as well. -/
theorem c10_jitter_bound_positivity :
    (∀ (d : Int) (a : Nat), 2 ≤ d → d * 2 ^ a < 2 ^ 63 →
      0 < maxJitterAt d a)
    ∧ maxJitterAt 1 0 = 0
    ∧ clientDo { maxRetries := 2, baseDelay := 1 } all429 noCancel
        .ctxCanceled 0 newCircuitBreaker = ⟨.panicked, 1, newCircuitBreaker⟩ := by
  refine ⟨?_, by decide, by decide⟩
  intro d a hd hov
  exact maxJitterAt_pos hd hov

theorem c10_jitter_bound_positivity_witness :
    ((2 : Int) ≤ 1000000000 ∧ (1000000000 : Int) * 2 ^ 3 < 2 ^ 63)
    ∧ 0 < maxJitterAt 1000000000 3 :=
  ⟨⟨by norm_num, by norm_num⟩,
    c10_jitter_bound_positivity.1 1000000000 3 (by norm_num) (by norm_num)⟩

/-- C9 counterexample: an attempt failing at the transport layer with
`context.Canceled` is not returned as the context's own error value:
`doOnce` wraps it with `fmt.Errorf("request failed: %w", err)`, a new
error value. -/
theorem c9_cancellation_unwrapped_counterexample :
    doOnceM ⟨.failure .ctxCanceled, .ok⟩ =
        some (.wrapped requestFailedMsg .ctxCanceled)
    ∧ some (GoError.wrapped requestFailedMsg .ctxCanceled) ≠
        some GoError.ctxCanceled := by
  decide

/-- An oracle cancelling every backoff sleep. -/
def cancelAlways : Nat → Bool := fun _ => true

/-- C9 (amended): a transport-layer failure (context cancellation
included) is returned wrapped with the fixed `request failed` prefix,
the context's error remaining discoverable through the unwrap chain
(`errors.Is` matches); a cancellation during a 429 backoff sleep, by
contrast, returns the context's own error unwrapped rather than a retry
outcome. -/
theorem c9_cancellation_propagation :
    (∀ (e : GoError) (d : DecodeOutcome),
      doOnceM ⟨.failure e, d⟩ = some (.wrapped requestFailedMsg e))
    ∧ isCtxCanceledE (.wrapped requestFailedMsg .ctxCanceled) = true
    ∧ (∀ (c : RetryCfg) (resp : Nat → AttemptIn) (cancel : Nat → Bool)
        (ctxE : GoError) (now : Nat) (cb : CircuitBreaker) (b : String)
        (d : DecodeOutcome),
        cb.failures < cb.maxFailures →
        resp 0 = ⟨.response 429 b, d⟩ →
        cancel 0 = true →
        0 < c.maxRetries →
        2 ≤ c.baseDelay →
        c.baseDelay < 2 ^ 63 →
        clientDo c resp cancel ctxE now cb = ⟨.err ctxE, 1, cb⟩) := by
  refine ⟨fun e d => rfl, rfl, ?_⟩
  intro c resp cancel ctxE now cb b d hcb hresp hcancel hmr hd hb63
  have hopen : isOpenCheck cb now = (cb, false) := by
    unfold isOpenCheck
    rw [if_neg (not_le.mpr hcb)]
  have hov0 : c.baseDelay * 2 ^ (0 : Nat) < 2 ^ 63 := by simpa using hb63
  have hjp := maxJitterAt_pos hd hov0
  simp [clientDo, hopen, doLoop, doOnceM, hresp, asAPIError, hmr,
    not_le.mpr hjp, hcancel]

theorem c9_cancellation_propagation_witness :
    doOnceM ⟨.failure .ctxCanceled, .ok⟩ =
        some (.wrapped requestFailedMsg .ctxCanceled)
    ∧ isCtxCanceledE (.wrapped requestFailedMsg .ctxCanceled) = true
    ∧ clientDo defaultRetryCfg all429 cancelAlways .ctxCanceled 5
        newCircuitBreaker = ⟨.err .ctxCanceled, 1, newCircuitBreaker⟩ :=
  ⟨c9_cancellation_propagation.1 .ctxCanceled .ok,
   c9_cancellation_propagation.2.1,
   c9_cancellation_propagation.2.2 defaultRetryCfg all429 cancelAlways
     .ctxCanceled 5 newCircuitBreaker ("rate limited") .ok (by decide) rfl
     rfl (by decide) (by decide) (by decide)⟩

/-- C5 counterexample: for the destination `struct { Status string }`,
direct decoding of the envelope `{"data":{"status":"ok"}}` succeeds
(unknown fields are ignored, `status` is absent, so the zero value `""`
results) and the `data` fallback never runs, while decoding
`{"status":"ok"}` directly yields `"ok"`: the two results differ. -/
theorem c5_envelope_equivalence_counterexample :
    decodeResponse umStatus
        (JVal.obj [(("data"), JVal.obj [(("status"), JVal.str ("ok"))])]) =
      some ("")
    ∧ umStatus (JVal.obj [(("status"), JVal.str ("ok"))]) = some ("ok")
    ∧ (some ("") : Option String) ≠ some ("ok") := by
  refine ⟨rfl, rfl, by decide⟩

/-- C5 (amended): decoding a successful response whose body is the
envelope `{"data": X}` produces the same decoded value as decoding `X`
directly whenever direct decoding of the envelope into the destination
fails (the fallback path); a destination that accepts the envelope
object itself decodes the wrapper instead. -/
theorem c5_envelope_fallback_agreement :
    ∀ {V : Type} (um : JVal → Option V) (x : JVal),
      um (JVal.obj [(("data"), x)]) = none →
      decodeResponse um (JVal.obj [(("data"), x)]) = um x := by
  intro V um x h
  simp only [decodeResponse, h]
  simp [lookupFieldLast]

theorem c5_envelope_fallback_agreement_witness :
    umArrayOnly (JVal.obj [(("data"), JVal.arr [])]) = none
    ∧ decodeResponse umArrayOnly (JVal.obj [(("data"), JVal.arr [])]) =
        umArrayOnly (JVal.arr []) :=
  ⟨rfl, c5_envelope_fallback_agreement umArrayOnly (JVal.arr []) rfl⟩

/-- Whether `needle` occurs as a contiguous substring of `hay`. -/
def containsSeq (needle : List Char) : List Char → Bool
  | [] => needle.isPrefixOf ([] : List Char)
  | c :: cs => needle.isPrefixOf (c :: cs) || containsSeq needle cs

/-- The error body `{"api_key":"secret123"}`. -/
def secretPairBody : List Char := ("\x7b\"api_key\":\"secret123\"\x7d").toList

/-- The secret value of that body. -/
def secretValue : List Char := ("secret123").toList

/-- A 502-character body whose `api_key` pair starts inside the
500-character truncation prefix but whose closing quote falls beyond
the cut. -/
def longSecretBody : List Char := List.replicate 479 'a' ++ secretPairBody

/-- C6 counterexample: truncation runs before redaction, so a body
containing `{"api_key":"secret123"}` whose pair is split by the
500-character cut renders with `secret123` still present: the pattern
needs the value's closing quote, which was truncated away, so no
redaction happens. -/
theorem c6_sanitize_counterexample :
    containsSeq secretPairBody longSecretBody = true
    ∧ containsSeq secretValue
        ((apiErrorRender 400 (String.mk longSecretBody)).toList) = true
    ∧ containsSeq secretValue (sanitizeErrorBody longSecretBody) = true := by
  decide

/-- C6 (amended): every `APIError` rendering first truncates the body to
500 characters (appending the truncation marker when cut) and then
redacts the sensitive key/value patterns, keeping the key and replacing
the value with the fixed marker; the body `{"api_key":"secret123"}`
itself renders redacted, without the substring `secret123`; a body over
500 characters renders with the truncation marker; but a pair whose
closing quote falls beyond the truncation cut escapes redaction. -/
theorem c6_sanitize_truncate_then_redact :
    sanitizeErrorBody secretPairBody =
        ("\x7b\"api_key\": \"[REDACTED]\"\x7d").toList
    ∧ containsSeq secretValue (sanitizeErrorBody secretPairBody) = false
    ∧ containsSeq secretValue
        ((apiErrorRender 400 (String.mk secretPairBody)).toList) = false
    ∧ containsSeq (("[REDACTED]").toList)
        (sanitizeErrorBody secretPairBody) = true
    ∧ containsSeq (("api_key").toList)
        (sanitizeErrorBody secretPairBody) = true
    ∧ containsSeq truncationMarker
        (sanitizeErrorBody (List.replicate 600 'a')) = true
    ∧ sanitizeErrorBody (List.replicate 600 'a') =
        List.replicate 500 'a' ++ truncationMarker := by
  decide

theorem hasSuffixL_append (x t : List Char) : hasSuffixL (x ++ t) t = true := by
  rw [hasSuffixL, decide_eq_true_eq]
  constructor
  · rw [List.length_append]; omega
  · have hl : (x ++ t).length - t.length = x.length := by
      rw [List.length_append]; omega
    rw [hl, List.drop_left]

theorem hasSuffixL_api_no_slash (t : List Char) :
    hasSuffixL (t ++ apiSegment) ['/'] = false := by
  rw [hasSuffixL, decide_eq_false_iff_not]
  intro hcon
  have hd1 : (t ++ apiSegment).drop ((t ++ apiSegment).length - 1) = ['/'] := by
    simpa using hcon.2
  have hlen : (t ++ apiSegment).length - 1 = (t ++ (['/', 'a', 'p'])).length := by
    simp [apiSegment]
  have hsplit : t ++ apiSegment = (t ++ (['/', 'a', 'p'])) ++ (['i']) := by
    simp [apiSegment]
  rw [hlen, hsplit, List.drop_left] at hd1
  exact absurd hd1 (by decide)

theorem normalizeBaseURL_has_api (u : List Char) :
    hasSuffixL (normalizeBaseURL u) apiSegment = true := by
  unfold normalizeBaseURL
  by_cases h : hasSuffixL (trimOneSuffix u ['/']) apiSegment = true
  · simp [h]
  · rw [if_neg h]
    exact hasSuffixL_append _ _

theorem normalizeBaseURL_fixpoint {s : List Char}
    (h : hasSuffixL s apiSegment = true) : normalizeBaseURL s = s := by
  have h2 := h
  rw [hasSuffixL, decide_eq_true_eq] at h2
  have hs : s = s.take (s.length - apiSegment.length) ++ apiSegment := by
    conv_lhs => rw [← List.take_append_drop (s.length - apiSegment.length) s]
    rw [h2.2]
  have hslash : hasSuffixL s ['/'] = false := by
    rw [hs]
    exact hasSuffixL_api_no_slash _
  simp [normalizeBaseURL, trimOneSuffix, hslash, h]

/-- C7: the base URL normalization of `NewWithOptions` (strip one
trailing slash, then append `/api` unless already a suffix) is
idempotent, and the four inputs `https://h`, `https://h/`,
`https://h/api`, `https://h/api/` all normalize to `https://h/api`. -/
theorem c7_normalize_idempotent :
    (∀ u : List Char,
      normalizeBaseURL (normalizeBaseURL u) = normalizeBaseURL u)
    ∧ normalizeBaseURL (("https://h").toList) = ("https://h/api").toList
    ∧ normalizeBaseURL (("https://h/").toList) = ("https://h/api").toList
    ∧ normalizeBaseURL (("https://h/api").toList) = ("https://h/api").toList
    ∧ normalizeBaseURL (("https://h/api/").toList) = ("https://h/api").toList :=
  ⟨fun u => normalizeBaseURL_fixpoint (normalizeBaseURL_has_api u),
   by decide, by decide, by decide, by decide⟩

/-- C8: the boundary exit-code mapping returns 2 for `ValidationError`,
3 for `AuthError`, 4 for `RateLimitError`, 5 for the not-configured
sentinel, 6 for `CircuitBreakerError`, 7 for timeout/deadline errors,
and 1 for any error matching none of those classes; and for rate-limit
failures the machine-readable payload carries the computed retry-after
value. -/
theorem c8_exit_code_mapping :
    (∀ f m, exitCode (.validationError f m) = 2)
    ∧ (∀ r, exitCode (.authError r) = 3)
    ∧ (∀ n, exitCode (.rateLimitError n) = 4)
    ∧ exitCode .notConfigured = 5
    ∧ exitCode .circuitBreakerError = 6
    ∧ exitCode .ctxDeadlineExceeded = 7
    ∧ (∀ m, exitCode (.netTimeout m) = 7)
    ∧ (∀ e : GoError,
        isNotConfiguredE e = false → isAuthE e = false →
        isRateLimitE e = false → isValidationE e = false →
        isCircuitBreakerE e = false → isCtxDeadlineE e = false →
        isNetTimeoutE e = false → exitCode e = 1)
    ∧ (∀ n, payloadLookup ("retry_after_seconds")
        (writeErrorPayload (.rateLimitError n)) = some (.i n)) := by
  refine ⟨fun f m => rfl, fun r => rfl, fun n => rfl, rfl, rfl, rfl,
    fun m => rfl, ?_, fun n => rfl⟩
  intro e h1 h2 h3 h4 h5 h6 h7
  simp [exitCode, classifyError, h1, h2, h3, h4, h5, h6, h7]

theorem c8_exit_code_mapping_witness :
    exitCode (.otherError ("boom")) = 1
    ∧ payloadLookup ("retry_after_seconds")
        (writeErrorPayload (.rateLimitError 8)) = some (.i 8) :=
  ⟨c8_exit_code_mapping.2.2.2.2.2.2.2.1 (.otherError ("boom"))
      rfl rfl rfl rfl rfl rfl rfl,
   c8_exit_code_mapping.2.2.2.2.2.2.2.2 8⟩
